import Mathlib

/-!
# Verification of the vectara-ingest `Indexer` (core/indexer.py)

Shallow embedding of the `Indexer` class from `src/core/indexer.py`.

Modelling conventions:
* Network I/O (`self.session.post` / `self.session.get`) is modelled by
  environment records holding the outcome of each call site, in call order.
  `Option Resp` with `none` means the call raised a transport exception
  (the Python code has no `try` around some of these calls, so a `none`
  outcome propagates as an exception unless the source catches it).
* Every modelled entry point returns `Except PyErr Bool × List Call`:
  the `Except` tracks whether the Python function returned a boolean or
  raised, and the `List Call` is an instrumentation trace of the remote
  calls and document-assembly invocations it performed, in order.
* `json.dumps` applied to caller-supplied metadata dictionaries is kept
  abstract as a function parameter `dumps`; metadata dictionaries are
  association lists (`Md`), whose Python truthiness is list non-emptiness.
* Python string operations used by the source (`str.split`, `endswith`,
  substring membership via `in`, `str.lower`) are defined below on
  character lists, following Python semantics.
-/

set_option autoImplicit false

/-- String-keyed opaque metadata mapping (Python `Dict[str, Any]`),
passed through untouched by the indexer. -/
abbrev Md := List (String × String)

/-- Python-level exception outcomes that the source code can raise or leak. -/
inductive PyErr where
  /-- `UnboundLocalError`: a local variable referenced before assignment. -/
  | unboundLocal (name : String)
  /-- a transport/network exception raised by an uncaught `session.post`. -/
  | netError
  /-- an exception raised inside a document parser (`partition_pdf` etc.). -/
  | parseFail (msg : String)
  /-- `IndexError` from subscripting a too-short `str.split` result. -/
  | indexErr
  deriving DecidableEq

/-- Instrumentation record of one outward call made by the indexer. -/
inductive Call where
  /-- a POST of a document to the `/v1/index` endpoint. -/
  | indexPost (doc_id : String)
  /-- a POST to the `/v1/delete-doc` endpoint. -/
  | delete (doc_id : String)
  /-- a multipart POST to the `/upload` endpoint;
  `second = true` marks the resubmission inside the reindex branch. -/
  | upload (second : Bool)
  /-- an invocation of the segmented-document path (`index_segments`),
  recording the document id, document title and segment texts passed. -/
  | assemble (doc_id : String) (title : String) (texts : List String)
  deriving DecidableEq

/-! ## Python string primitives -/

/-- Python `hay.startswith(pre)` on character lists: first argument is the
candidate prefix. -/
def hasPre : List Char → List Char → Bool
  | [], _ => true
  | _ :: _, [] => false
  | a :: as, b :: bs => a == b && hasPre as bs

/-- Does `needle` occur as a contiguous run inside the second list?
Python `needle in hay` for strings (empty needle always matches). -/
def hasSub (needle : List Char) : List Char → Bool
  | [] => needle.isEmpty
  | c :: cs => hasPre needle (c :: cs) || hasSub needle cs

/-- Python `needle in hay` on strings. -/
def strContains (hay needle : String) : Bool :=
  hasSub needle.toList hay.toList

/-- Python `s.endswith(suffixStr)`. -/
def strEndsWith (s suffixStr : String) : Bool :=
  hasPre suffixStr.toList.reverse s.toList.reverse

/-- Python `s.lower()` (ASCII case folding suffices for the suffix checks
the source performs). -/
def strLower (s : String) : String :=
  String.mk (s.toList.map Char.toLower)

/-- Fuel-driven worker for Python `str.split(sep)` with a non-empty
separator: splits at every non-overlapping occurrence, left to right,
keeping empty pieces.  With fuel at least the length of the list the
fuel never runs out. -/
def pySplitF : Nat → List Char → List Char → List (List Char)
  | 0, _, l => [l]
  | _ + 1, _, [] => [[]]
  | fuel + 1, sep, c :: cs =>
    if hasPre sep (c :: cs) && !sep.isEmpty then
      [] :: pySplitF fuel sep (List.drop (sep.length - 1) cs)
    else
      match pySplitF fuel sep cs with
      | [] => [[c]]
      | p :: ps => (c :: p) :: ps

/-- Python `s.split(sep)` for a non-empty separator `sep`. -/
def pySplit (sep : List Char) (l : List Char) : List (List Char) :=
  pySplitF (l.length + 1) sep l

/-- Extraction of a conflicting document id from a 409 response body,
as in `_index_file` (indexer.py line 183):
`response.json()['details'].split('document id')[1].split("'")[1]`.
Returns `none` when either subscript `[1]` would raise `IndexError`. -/
def parseConflictId (details : String) : Option String :=
  match (pySplit ("document id".toList) details.toList).get? 1 with
  | none => none
  | some piece =>
    match (pySplit [Char.ofNat 39] piece).get? 1 with
    | none => none
    | some idChars => some (String.mk idChars)

/-! ## Model of the external python-slugify dependency -/

/-- Is the character in the slug alphabet `[a-z0-9]`? -/
def isAlnumLower (c : Char) : Bool :=
  (('a' ≤ c) && (c ≤ 'z')) || (('0' ≤ c) && (c ≤ '9'))

/-- Collapse maximal runs of hyphens to a single hyphen. -/
def collapseDash : List Char → List Char
  | [] => []
  | [c] => [c]
  | a :: b :: rest =>
    if a == '-' && b == '-' then collapseDash (b :: rest)
    else a :: collapseDash (b :: rest)

/-- Model of the external python-slugify library's default `slugify` on
ASCII input: lowercase each character, replace every character outside
`[a-z0-9]` by a hyphen, collapse hyphen runs, and strip hyphens at both
ends.  (The library additionally transliterates non-ASCII input and
strips quotes; the source only passes it URLs and filenames, and the
claims below only evaluate it on plain ASCII.) -/
def slugify (s : String) : String :=
  let mapped := s.toList.map fun c =>
    let lc := c.toLower
    if isAlnumLower lc then lc else '-'
  let collapsed := collapseDash mapped
  let trimmed := ((collapsed.dropWhile (· == '-')).reverse.dropWhile (· == '-')).reverse
  String.mk trimmed

/-- Python `url.split("#")[0]` (indexer.py line 283): the URL with any
fragment removed. -/
def stripFragment (url : String) : String :=
  String.mk ((pySplit [Char.ofNat 35] url.toList).headD [])

/-! ## Data model -/

/-- One entry of the `"section"` list built by `index_segments`
(indexer.py line 353): `{"text": ..., "title": ..., "metadataJson": ...}`. -/
structure DocSection where
  text : String
  title : String
  metadataJson : String
  deriving DecidableEq

/-- The document dictionary built by `index_segments` and consumed by
`_index_document`.  Optional fields model Python key presence; the
source key `"section"` is named `sections` here because `section` is a
Lean keyword. -/
structure Document where
  documentId : String
  title : Option String
  sections : List DocSection
  metadataJson : Option String
  deriving DecidableEq

/-- The `"status"` object of a parsed `/v1/index` response body:
`result["status"]["code"]` and `result["status"]["statusDetail"]`. -/
structure StatusObj where
  code : String
  statusDetail : String
  deriving DecidableEq

/-- A `/v1/index` HTTP response: status code plus the parsed body's
`"status"` entry (`none` when the key is absent or its value falsy,
i.e. when `"status" in result and result["status"]` is false). -/
structure IdxResp where
  status_code : Nat
  body : Option StatusObj
  deriving DecidableEq

/-- Outcomes of the calls `_index_document` can make, in call order.
`none` for a POST outcome means the call raised a transport exception. -/
structure IdxEnv where
  /-- does `json.dumps(request)` succeed (line 219)? -/
  serializeOk : Bool
  /-- outcome of the first POST to `/v1/index` (line 225; wrapped in `try`). -/
  post1 : Option IdxResp
  /-- outcome of the delete call made in the reindex branch (line 243;
  `none` = the POST inside `delete_doc` raised, which is uncaught). -/
  deleteOutcome : Option Nat
  /-- outcome of the resubmission POST (line 244; not wrapped in `try`). -/
  post2 : Option IdxResp

/-- An `/upload` HTTP response: status code plus the body's `'details'`
string (only read on 409). -/
structure UploadResp where
  status_code : Nat
  details : String
  deriving DecidableEq

/-- Outcomes of the calls `_index_file` can make, in call order. -/
structure UploadEnv where
  /-- outcome of the first multipart POST to `/upload` (line 177). -/
  post1 : Option UploadResp
  /-- outcome of the delete call in the 409 reindex branch (line 184). -/
  deleteOutcome : Option Nat
  /-- outcome of the resubmission POST (line 185). -/
  post2 : Option UploadResp

/-- The already-exists test of `_index_document` (indexer.py lines
238-240): the status code contains `"ALREADY_EXISTS"`, or it contains
`"CONFLICT"` and the status detail carries the updates-unsupported
message. -/
def alreadyExists (st : StatusObj) : Bool :=
  strContains st.code "ALREADY_EXISTS" ||
    (strContains st.code "CONFLICT" &&
      strContains st.statusDetail "Indexing doesn\x27t support updating documents")

/-! ## Indexing client -/

/-- `delete_doc` (indexer.py lines 132-152): POSTs to `/v1/delete-doc`;
returns `False` when the status code is not 200, `True` otherwise.  The
POST is not wrapped in `try`, so a transport exception propagates. -/
def delete_doc (outcome : Option Nat) (doc_id : String) :
    Except PyErr Bool × List Call :=
  (match outcome with
   | none => .error .netError
   | some status =>
     if status ≠ 200 then .ok false
     else .ok true,
   [.delete doc_id])

/-- `_index_document` (indexer.py lines 202-253), which the public
`index_document` wrapper (line 358) calls unchanged.  Serializes the
request (failure: logged, returns `False`); POSTs it (transport
exception: caught, returns `False`); non-200 status: returns `False`;
already-exists/conflict status: reindex (delete by the document's own
id, resubmit once, return `True` without looking at the resubmission's
response) or skip (`False`); `"OK"` status: `True`; anything else:
`False`. -/
def index_document (reindex : Bool) (ienv : IdxEnv) (doc : Document) :
    Except PyErr Bool × List Call :=
  if !ienv.serializeOk then (.ok false, [])
  else
    match ienv.post1 with
    | none => (.ok false, [.indexPost doc.documentId])
    | some resp =>
      if resp.status_code ≠ 200 then (.ok false, [.indexPost doc.documentId])
      else
        match resp.body with
        | none => (.ok false, [.indexPost doc.documentId])
        | some st =>
          if alreadyExists st then
            if reindex then
              let d := delete_doc ienv.deleteOutcome doc.documentId
              match d.1 with
              | .error e => (.error e, .indexPost doc.documentId :: d.2)
              | .ok _ =>
                match ienv.post2 with
                | none =>
                  (.error .netError,
                    .indexPost doc.documentId :: d.2 ++ [.indexPost doc.documentId])
                | some _ =>
                  (.ok true,
                    .indexPost doc.documentId :: d.2 ++ [.indexPost doc.documentId])
            else (.ok false, [.indexPost doc.documentId])
          else if strContains st.code "OK" then (.ok true, [.indexPost doc.documentId])
          else (.ok false, [.indexPost doc.documentId])

/-- `_index_file` (indexer.py lines 154-200): multipart upload of a
local file.  409 with reindex enabled: parse the existing document id
out of the response body's `details`, delete it, resubmit once, and
return `True` whatever the resubmission's status code is; 409 with
reindex disabled: `False`; other non-200: `False`; 200: `True`.
The existence check on the local file is the caller-supplied flag. -/
def index_file_raw (reindex : Bool) (uenv : UploadEnv) (fexists : Bool) :
    Except PyErr Bool × List Call :=
  if !fexists then (.ok false, [])
  else
    match uenv.post1 with
    | none => (.error .netError, [.upload false])
    | some resp =>
      if resp.status_code = 409 then
        if reindex then
          match parseConflictId resp.details with
          | none => (.error .indexErr, [.upload false])
          | some docId =>
            let d := delete_doc uenv.deleteOutcome docId
            match d.1 with
            | .error e => (.error e, .upload false :: d.2)
            | .ok _ =>
              match uenv.post2 with
              | none => (.error .netError, .upload false :: d.2 ++ [.upload true])
              | some _ => (.ok true, .upload false :: d.2 ++ [.upload true])
        else (.ok false, [.upload false])
      else if resp.status_code ≠ 200 then (.ok false, [.upload false])
      else (.ok true, [.upload false])

/-! ## Document assembler and segmented-document path -/

/-- The document dictionary built by `index_segments` (indexer.py lines
344-355) before it is handed to `index_document`: omitted `titles`
default to one empty string per text, omitted `metadatas` to one empty
dict per text; the `"title"` key is set only when `doc_title` is
non-empty, the `"metadataJson"` key only when `doc_metadata` is truthy;
the `"section"` list zips texts, titles and metadatas (Python `zip`
truncates to the shortest sequence, as does `List.zip`). -/
def buildDocument (dumps : Md → String) (doc_id : String) (texts : List String)
    (titles : Option (List String)) (metadatas : Option (List Md))
    (doc_metadata : Md) (doc_title : String) : Document :=
  let titles := match titles with
    | none => texts.map fun _ => ""
    | some ts => ts
  let metadatas := match metadatas with
    | none => texts.map fun _ => ([] : Md)
    | some ms => ms
  { documentId := doc_id
    title := if 0 < doc_title.length then some doc_title else none
    sections :=
      (texts.zip (titles.zip metadatas)).map fun p =>
        { text := p.1, title := p.2.1, metadataJson := dumps p.2.2 }
    metadataJson := if doc_metadata ≠ [] then some (dumps doc_metadata) else none }

/-- `index_segments` (indexer.py lines 339-356): builds the document
dictionary and submits it through `index_document`/`_index_document`.
The trace records the invocation (id, document title, texts) followed
by the remote calls the submission makes. -/
def index_segments (dumps : Md → String) (reindex : Bool) (ienv : IdxEnv)
    (doc_id : String) (texts : List String) (titles : Option (List String))
    (metadatas : Option (List Md)) (doc_metadata : Md) (doc_title : String) :
    Except PyErr Bool × List Call :=
  let doc := buildDocument dumps doc_id texts titles metadatas doc_metadata doc_title
  let r := index_document reindex ienv doc
  (r.1, .assemble doc_id doc_title texts :: r.2)

/-! ## PDF extractor -/

/-- A typed element of an `unstructured.partition_pdf` result: the source
distinguishes `Title` elements, `Table` elements and everything else
(narrative text etc.); `str(x)` is the element's text. -/
inductive PdfElement where
  | titleEl (text : String)
  | tableEl (text : String)
  | otherEl (text : String)
  deriving DecidableEq

/-- The element's text, Python `str(x)`. -/
def elemText : PdfElement → String
  | .titleEl t => t
  | .tableEl t => t
  | .otherEl t => t

/-- Python `type(x) == us.documents.elements.Title`. -/
def isTitleEl : PdfElement → Bool
  | .titleEl _ => true
  | _ => false

/-- Python `type(x) == us.documents.elements.Table`. -/
def isTableEl : PdfElement → Bool
  | .tableEl _ => true
  | _ => false

/-- `_parse_pdf_file` (indexer.py lines 255-271) applied to the typed
elements `partition_pdf` produced.  `summ` abstracts the external
`TableSummarizer.summarize_table_text`.  Title: first `Title` element
whose text is longer than 10 characters, else `"unknown"`.  Texts: the
elements passing the `tables_only` filter, each table text replaced by
its summary when `summarize_tables` is enabled. -/
def parse_pdf_file (summarize_tables : Bool) (summ : String → String)
    (tables_only : Bool) (elements : List PdfElement) : String × List String :=
  let titles :=
    (elements.filter fun x => isTitleEl x && decide (10 < (elemText x).length)).map elemText
  let title := titles.headD "unknown"
  let texts :=
    ((elements.filter fun t =>
        (tables_only && isTableEl t) || (!tables_only && !isTitleEl t)).map
      fun t => if isTableEl t && summarize_tables then summ (elemText t) else elemText t)
  (title, texts)

/-! ## Pipeline controller -/

/-- Environment for one `index_url` unit of work. -/
structure UrlEnv where
  /-- result of `url_triggers_download` (line 285). -/
  triggersDownload : Bool
  /-- status code of the streaming `session.get` download (line 287). -/
  downloadStatus : Nat
  /-- outcome of `_parse_pdf_file` on the downloaded file (line 298);
  an exception here is not caught by `index_url`. -/
  pdfParse : Except PyErr (String × List String)
  /-- rendered content returned by `fetch_page_contents` (line 317);
  that method catches its own exceptions and returns `""`. -/
  fetchedContent : String
  /-- resolved post-redirect URL returned by `fetch_page_contents`. -/
  fetchedUrl : String
  /-- outcome of the language-detection plus `get_content_and_title`
  block (lines 320-326), which runs inside `try`; `.ok` carries
  `(text, extracted_title)`. -/
  extract : Except PyErr (String × String)
  /-- outcomes for the calls of the final document submission. -/
  idx : IdxEnv

/-- `index_url` (indexer.py lines 273-337).  Download path: a failed
download returns `False`; a downloaded `.pdf` is parsed (uncaught
exceptions escape) and submitted via `index_segments`; a downloaded
`.md`/`.rst`/`.ipynb` raises `UnboundLocalError` because line 302 reads
the local variable `content`, which is never assigned on this path; any
other downloaded suffix raises `UnboundLocalError` at line 335 because
`parts` was never assigned.  Non-download path: content shorter than 3
characters returns `False` with no indexing attempt; an extraction
exception is caught and returns `False`; otherwise the resolved URL is
slugified into the document id and the single extracted text segment is
submitted via `index_segments`. -/
def index_url (dumps : Md → String) (reindex : Bool) (env : UrlEnv)
    (url0 : String) (metadata : Md) : Except PyErr Bool × List Call :=
  let url := stripFragment url0
  if env.triggersDownload then
    if env.downloadStatus ≠ 200 then (.ok false, [])
    else if strEndsWith url ".pdf" then
      match env.pdfParse with
      | .error e => (.error e, [])
      | .ok (extracted_title, parts) =>
        index_segments dumps reindex env.idx (slugify url) parts none none
          metadata extracted_title
    else if strEndsWith url ".md" || strEndsWith url ".rst" ||
        strEndsWith (strLower url) ".ipynb" then
      (.error (.unboundLocal "content"), [])
    else
      (.error (.unboundLocal "parts"), [])
  else
    if env.fetchedContent.length < 3 then (.ok false, [])
    else
      match env.extract with
      | .error _ => (.ok false, [])
      | .ok (text, extracted_title) =>
        index_segments dumps reindex env.idx (slugify env.fetchedUrl) [text]
          none none metadata extracted_title

/-- Environment for one `index_file` unit of work. -/
structure FileEnv where
  /-- does the local file exist (line 375)? -/
  fileExists : Bool
  /-- `get_file_size_in_MB(filename)` (line 380). -/
  sizeMB : ℚ
  /-- outcome of `_parse_pdf_file(filename)` in the oversized branch
  (line 381); an exception here is not caught. -/
  pdfParseFull : Except PyErr (String × List String)
  /-- outcome of `_parse_pdf_file(filename, tables_only=True)` in the
  table-summarization branch (line 390); runs inside `try`. -/
  pdfParseTables : Except PyErr (String × List String)
  /-- call outcomes for the oversized-PDF segmented submission. -/
  idxFull : IdxEnv
  /-- call outcomes for the table-summaries segmented submission. -/
  idxTables : IdxEnv
  /-- call outcomes for the raw multipart upload. -/
  upload : UploadEnv

/-- `index_file` (indexer.py lines 365-398).  Missing file: `False`.
A `.pdf` of 50MB or more: locally extract and submit via
`index_segments` with id `slugify(filename)`, returning that result.
Otherwise, when table summarization is on and the file is a `.pdf`:
parse tables and submit them as a separate document with id
`slugify(filename + "_tables")` and title `"Tables for " + filename`;
an exception anywhere in that `try` block returns `False`, while the
boolean result of the secondary submission is discarded.  Finally the
raw file is uploaded via `_index_file`. -/
def index_file (dumps : Md → String) (summarize_tables reindex : Bool)
    (env : FileEnv) (filename uri : String) (metadata : Md) :
    Except PyErr Bool × List Call :=
  if !env.fileExists then (.ok false, [])
  else if strEndsWith filename ".pdf" && decide (50 ≤ env.sizeMB) then
    match env.pdfParseFull with
    | .error e => (.error e, [])
    | .ok (title, texts) =>
      index_segments dumps reindex env.idxFull (slugify filename) texts none none
        metadata title
  else if summarize_tables && strEndsWith filename ".pdf" then
    match env.pdfParseTables with
    | .error _ => (.ok false, [])
    | .ok (_t, texts) =>
      let s := index_segments dumps reindex env.idxTables
        (slugify (filename ++ "_tables")) texts none none metadata
        ("Tables for " ++ filename)
      match s.1 with
      | .error _ => (.ok false, s.2)
      | .ok _ =>
        let u := index_file_raw reindex env.upload env.fileExists
        (u.1, s.2 ++ u.2)
  else
    index_file_raw reindex env.upload env.fileExists

/-! ## Helper lemmas -/

/-- `_index_document` never uploads a raw file and never invokes the
assembler: its trace consists of posts and deletes only. -/
theorem index_document_no_upload_calls (reindex : Bool) (ienv : IdxEnv) (doc : Document) :
    (index_document reindex ienv doc).2.countP
        (fun c => match c with | Call.upload _ => true | _ => false) = 0
  ∧ (index_document reindex ienv doc).2.countP
        (fun c => match c with | Call.assemble _ _ _ => true | _ => false) = 0 := by
  unfold index_document delete_doc
  rcases ienv with ⟨sOk, p1, dOut, p2⟩
  constructor <;>
  · dsimp only
    cases dOut <;> (repeat' first | rfl | split)

/-- A string has positive length exactly when it is non-empty. -/
theorem string_length_pos_iff (s : String) : 0 < s.length ↔ s ≠ "" := by
  cases s with
  | mk data =>
    cases data with
    | nil => simp [String.length]
    | cons c cs =>
      simp only [String.length, List.length_cons, Nat.zero_lt_succ, true_iff]
      intro h
      exact List.noConfusion (congrArg String.data h)

/-- Zipping a list with the two default parallel sequences built by
`index_segments` collapses to a plain map. -/
theorem zip_defaults_map (dumps : Md → String) (texts : List String) :
    ((texts.zip ((texts.map fun _ => "").zip (texts.map fun _ => ([] : Md)))).map
        fun p => DocSection.mk p.1 p.2.1 (dumps p.2.2))
      = texts.map fun t => DocSection.mk t "" (dumps []) := by
  induction texts with
  | nil => rfl
  | cons t ts ih => simpa using ih

/-- The head of a filtered list is the first element satisfying the
predicate. -/
theorem headD_filter_eq_find (p : PdfElement → Bool) (d : String)
    (l : List PdfElement) :
    ((l.filter p).map elemText).headD d = ((l.find? p).map elemText).getD d := by
  induction l with
  | nil => rfl
  | cons x xs ih =>
    by_cases hp : p x
    · simp [List.filter_cons, List.find?_cons, hp]
    · simp only [List.filter_cons, List.find?_cons, hp]
      simpa using ih

/-! ## C10: delete_doc -/

/-- C10: for every doc_id, `delete_doc` returns `True` exactly when the
remote delete endpoint responds with HTTP status 200 and `False` for
every other status code, and it performs exactly the single delete
call — no retry and no inspection of the response body. -/
theorem delete_doc_status_200 (status : Nat) (doc_id : String) :
    ((delete_doc (some status) doc_id).1 = .ok true ↔ status = 200)
  ∧ (delete_doc (some status) doc_id).2 = [Call.delete doc_id] := by
  constructor
  · by_cases h : status = 200 <;> simp [delete_doc, h]
  · rfl

/-! ## C5: _index_document response interpretation -/

/-- C5 (amended): `_index_document` returns `False` on a transport
exception and on every HTTP status other than 200 — including 2xx
statuses such as 201, which the code does not treat as success; on a
200 response whose status object carries an `"OK"` code it returns
`True`; on a 200 response with no truthy status object, or with a
status code that is neither the already-exists family nor `"OK"`, it
returns `False`. -/
theorem index_document_response_interpretation (reindex : Bool) (ienv : IdxEnv)
    (doc : Document) :
    (ienv.post1 = none → (index_document reindex ienv doc).1 = .ok false)
  ∧ (∀ resp : IdxResp, ienv.post1 = some resp → resp.status_code ≠ 200 →
      (index_document reindex ienv doc).1 = .ok false)
  ∧ (∀ st : StatusObj, ienv.serializeOk = true →
      ienv.post1 = some { status_code := 200, body := some st } →
      alreadyExists st = false → strContains st.code "OK" = true →
      (index_document reindex ienv doc).1 = .ok true)
  ∧ (ienv.post1 = some { status_code := 200, body := none } →
      (index_document reindex ienv doc).1 = .ok false)
  ∧ (∀ st : StatusObj,
      ienv.post1 = some { status_code := 200, body := some st } →
      alreadyExists st = false → strContains st.code "OK" = false →
      (index_document reindex ienv doc).1 = .ok false) := by
  refine ⟨?_, ?_, ?_, ?_, ?_⟩
  · intro h1
    cases hs : ienv.serializeOk <;> simp [index_document, h1, hs]
  · intro resp h1 hcode
    cases hs : ienv.serializeOk <;> simp [index_document, h1, hs, hcode]
  · intro st hs h1 hae hok
    simp [index_document, h1, hs, hae, hok]
  · intro h1
    cases hs : ienv.serializeOk <;> simp [index_document, h1, hs]
  · intro st h1 hae hok
    cases hs : ienv.serializeOk <;> simp [index_document, h1, hs, hae, hok]

/-- C5 witness: a 200 response with an `"OK"` status code yields
success; a non-200 response yields failure. -/
theorem index_document_response_interpretation_witness :
    (index_document true
        { serializeOk := true,
          post1 := some { status_code := 200, body := some { code := "OK", statusDetail := "" } },
          deleteOutcome := some 200, post2 := none }
        { documentId := "w5", title := none, sections := [], metadataJson := none }).1
      = .ok true
  ∧ (index_document true
        { serializeOk := true,
          post1 := some { status_code := 500, body := none },
          deleteOutcome := some 200, post2 := none }
        { documentId := "w5", title := none, sections := [], metadataJson := none }).1
      = .ok false := by
  constructor
  · exact (index_document_response_interpretation true _ _).2.2.1
      { code := "OK", statusDetail := "" } rfl rfl (by decide) (by decide)
  · exact (index_document_response_interpretation true _ _).2.1
      { status_code := 500, body := none } rfl (by decide)

/-- C5 counterexample: the claim promises success on every 2xx response
carrying an `"OK"` status, but on a 201 response — a 2xx status — the
code returns `False` because it compares the status code to exactly
200. -/
theorem index_document_2xx_ok_counterexample :
    (index_document true
        { serializeOk := true,
          post1 := some { status_code := 201, body := some { code := "OK", statusDetail := "" } },
          deleteOutcome := some 200, post2 := none }
        { documentId := "c5", title := none, sections := [], metadataJson := none }).1
      = .ok false
  ∧ (200 ≤ 201 ∧ 201 < 300) := by
  exact ⟨rfl, by decide, by decide⟩

/-! ## C1: already-exists handling in _index_document -/

/-- C1 (amended): for a document whose index response has HTTP status
exactly 200 (the only status the client accepts; other 2xx statuses are
treated as failures) and a status object indicating it already exists:
with reindex enabled, `_index_document` issues exactly one delete call
for the document's id followed by exactly one resubmission of the
identical request and returns `True` without re-validating the
resubmission's response; with reindex disabled, it issues zero delete
calls and returns `False`. -/
theorem index_document_already_exists_reindex (doc : Document) (st : StatusObj)
    (d : Nat) (r2 : IdxResp) (h : alreadyExists st = true) :
    index_document true
        { serializeOk := true,
          post1 := some { status_code := 200, body := some st },
          deleteOutcome := some d, post2 := some r2 } doc
      = (.ok true,
         [Call.indexPost doc.documentId, Call.delete doc.documentId,
          Call.indexPost doc.documentId])
  ∧ ∀ (dOut : Option Nat) (p2 : Option IdxResp),
      index_document false
          { serializeOk := true,
            post1 := some { status_code := 200, body := some st },
            deleteOutcome := dOut, post2 := p2 } doc
        = (.ok false, [Call.indexPost doc.documentId]) := by
  constructor
  · simp only [index_document, h, delete_doc]
    by_cases hd : d = 200 <;> simp [hd]
  · intro dOut p2
    simp [index_document, h]

/-- C1 witness: a 200 response with an `ALREADY_EXISTS` status code and
reindex enabled produces delete-then-resubmit and success; with reindex
disabled, no delete and failure. -/
theorem index_document_already_exists_reindex_witness :
    index_document true
        { serializeOk := true,
          post1 := some { status_code := 200,
                          body := some { code := "ALREADY_EXISTS", statusDetail := "" } },
          deleteOutcome := some 200,
          post2 := some { status_code := 200, body := none } }
        { documentId := "w1", title := none, sections := [], metadataJson := none }
      = (.ok true, [Call.indexPost "w1", Call.delete "w1", Call.indexPost "w1"])
  ∧ index_document false
        { serializeOk := true,
          post1 := some { status_code := 200,
                          body := some { code := "ALREADY_EXISTS", statusDetail := "" } },
          deleteOutcome := none, post2 := none }
        { documentId := "w1", title := none, sections := [], metadataJson := none }
      = (.ok false, [Call.indexPost "w1"]) := by
  constructor
  · exact (index_document_already_exists_reindex
      { documentId := "w1", title := none, sections := [], metadataJson := none }
      { code := "ALREADY_EXISTS", statusDetail := "" } 200
      { status_code := 200, body := none } (by decide)).1
  · exact (index_document_already_exists_reindex
      { documentId := "w1", title := none, sections := [], metadataJson := none }
      { code := "ALREADY_EXISTS", statusDetail := "" } 200
      { status_code := 200, body := none } (by decide)).2 none none

/-- C1 counterexample: the claim covers every 2xx index response, but on
a 201 response carrying an `ALREADY_EXISTS` status with reindex enabled
the code issues zero delete calls and returns `False`, because it only
enters the already-exists branch after comparing the status code to
exactly 200. -/
theorem index_document_already_exists_2xx_counterexample :
    index_document true
        { serializeOk := true,
          post1 := some { status_code := 201,
                          body := some { code := "ALREADY_EXISTS", statusDetail := "" } },
          deleteOutcome := some 200,
          post2 := some { status_code := 200, body := none } }
        { documentId := "c1", title := none, sections := [], metadataJson := none }
      = (.ok false, [Call.indexPost "c1"])
  ∧ alreadyExists { code := "ALREADY_EXISTS", statusDetail := "" } = true
  ∧ (200 ≤ 201 ∧ 201 < 300) := by
  exact ⟨rfl, by decide, by decide, by decide⟩

/-! ## C7: index_segments document construction with defaults -/

/-- C7: with `titles`/`metadatas` omitted, the document built by
`index_segments` has exactly one section per element of `texts`, in the
same order, each with empty title and the serialized empty metadata
dict; the document `"title"` key is present exactly when `doc_title` is
non-empty, the `"metadataJson"` key exactly when `doc_metadata` is
non-empty; and `texts = []` yields zero sections (no exception is
possible: the builder is a total function). -/
theorem build_document_defaults (dumps : Md → String) (doc_id : String)
    (texts : List String) (doc_metadata : Md) (doc_title : String) :
    (buildDocument dumps doc_id texts none none doc_metadata doc_title).sections
        = texts.map (fun t => { text := t, title := "", metadataJson := dumps [] })
  ∧ (buildDocument dumps doc_id texts none none doc_metadata doc_title).title
        = (if doc_title = "" then none else some doc_title)
  ∧ (buildDocument dumps doc_id texts none none doc_metadata doc_title).metadataJson
        = (if doc_metadata = [] then none else some (dumps doc_metadata))
  ∧ (buildDocument dumps doc_id [] none none doc_metadata doc_title).sections = [] := by
  refine ⟨?_, ?_, ?_, ?_⟩
  · exact zip_defaults_map dumps texts
  · simp only [buildDocument]
    by_cases ht : doc_title = ""
    · simp [ht, string_length_pos_iff]
    · simp [ht, (string_length_pos_iff doc_title).mpr ht]
  · simp only [buildDocument]
    by_cases hm : doc_metadata = [] <;> simp [hm]
  · rfl

/-! ## C9: PDF extractor -/

/-- C9: with summarization off (the default configuration), the PDF
extractor returns as title the text of the first partition element
typed as a `Title` whose text is longer than 10 characters, or
`"unknown"` when no such element exists; its segment texts are the
non-`Title` elements in partition order by default, and exactly the
`Table` elements in order in `tables_only` mode. -/
theorem parse_pdf_title_and_segments (summ : String → String)
    (tables_only : Bool) (elements : List PdfElement) :
    (parse_pdf_file false summ tables_only elements).1
        = ((elements.find? fun x =>
              isTitleEl x && decide (10 < (elemText x).length)).map elemText).getD "unknown"
  ∧ (parse_pdf_file false summ false elements).2
        = (elements.filter fun t => !isTitleEl t).map elemText
  ∧ (parse_pdf_file false summ true elements).2
        = (elements.filter fun t => isTableEl t).map elemText := by
  refine ⟨?_, ?_, ?_⟩
  · exact headD_filter_eq_find _ "unknown" elements
  · simp [parse_pdf_file]
  · simp [parse_pdf_file]

/-! ## C8: 409 handling in _index_file -/

/-- C8: on an HTTP 409 upload response with reindex enabled,
`_index_file` parses the existing document id out of the conflict
response body, deletes that document, resubmits the upload exactly
once, and returns `True` regardless of the resubmission's HTTP status;
with reindex disabled it returns `False` and issues no delete. -/
theorem index_file_raw_conflict_reindex (uenv : UploadEnv) (resp1 : UploadResp)
    (docId : String) (d : Nat) (r2 : UploadResp)
    (h1 : uenv.post1 = some resp1) (h409 : resp1.status_code = 409)
    (hid : parseConflictId resp1.details = some docId)
    (hd : uenv.deleteOutcome = some d) (h2 : uenv.post2 = some r2) :
    index_file_raw true uenv true
      = (.ok true, [Call.upload false, Call.delete docId, Call.upload true])
  ∧ ∀ uenv2 : UploadEnv, uenv2.post1 = some resp1 →
      index_file_raw false uenv2 true = (.ok false, [Call.upload false]) := by
  constructor
  · simp only [index_file_raw, h1, h409, hid, hd, h2, delete_doc]
    by_cases hdd : d = 200 <;> simp [hdd]
  · intro uenv2 h1b
    simp [index_file_raw, h1b, h409]

/-- The concrete 409 conflict response used by the C8 witness. -/
def conflictResp : UploadResp :=
  { status_code := 409,
    details := "cannot index; document id \x27mydoc\x27 already exists" }

/-- C8 witness: a 409 whose body names the existing document id between
quotes is resolved by delete-then-resubmit and reported as success even
though the resubmission came back with status 500; with reindex
disabled the same 409 yields failure and no delete. -/
theorem index_file_raw_conflict_reindex_witness :
    index_file_raw true
        { post1 := some conflictResp, deleteOutcome := some 200,
          post2 := some { status_code := 500, details := "" } } true
      = (.ok true, [Call.upload false, Call.delete "mydoc", Call.upload true])
  ∧ index_file_raw false
        { post1 := some conflictResp, deleteOutcome := none, post2 := none } true
      = (.ok false, [Call.upload false]) := by
  constructor
  · exact (index_file_raw_conflict_reindex _ conflictResp
      "mydoc" 200 { status_code := 500, details := "" }
      rfl rfl (by decide) rfl rfl).1
  · exact (index_file_raw_conflict_reindex
      { post1 := some conflictResp, deleteOutcome := some 200,
        post2 := some { status_code := 500, details := "" } } conflictResp
      "mydoc" 200 { status_code := 500, details := "" }
      rfl rfl (by decide) rfl rfl).2 _ rfl

/-! ## C6: short content fails fast -/

/-- C6: on the non-download path, when the fetched rendered content is
empty or shorter than 3 characters, `index_url` returns `False` with an
empty call trace — neither the assembler (`index_segments`) nor the
indexing client (`index_document`) is invoked. -/
theorem index_url_short_content_fails_fast (dumps : Md → String) (reindex : Bool)
    (env : UrlEnv) (url : String) (metadata : Md)
    (hdl : env.triggersDownload = false)
    (hshort : env.fetchedContent.length < 3) :
    index_url dumps reindex env url metadata = (.ok false, []) := by
  simp [index_url, hdl, hshort]

/-- C6 witness: a two-character rendered page is rejected with no
indexing calls. -/
theorem index_url_short_content_fails_fast_witness :
    index_url (fun _ => "") true
        { triggersDownload := false, downloadStatus := 200,
          pdfParse := .ok ("", []), fetchedContent := "ab",
          fetchedUrl := "https://short.example.com",
          extract := .ok ("", ""),
          idx := { serializeOk := true, post1 := none,
                   deleteOutcome := none, post2 := none } }
        "https://short.example.com" []
      = (.ok false, []) :=
  index_url_short_content_fails_fast (fun _ => "") true _
    "https://short.example.com" [] rfl (by decide)

/-! ## C2: exception containment in index_url -/

/-- C2 (code bug): the propagation policy says no exception from fetch,
extraction, or indexing escapes `index_url`, but the download path is
not inside any `try`.  For a URL ending in `.md` that triggers a
download which succeeds with HTTP 200, line 302 reads the local
variable `content`, which is never assigned on the download path, so
`index_url` raises `UnboundLocalError` instead of returning `False`. -/
theorem index_url_download_md_exception_escapes :
    index_url (fun _ => "") true
        { triggersDownload := true, downloadStatus := 200,
          pdfParse := .ok ("", []), fetchedContent := "",
          fetchedUrl := "", extract := .ok ("", ""),
          idx := { serializeOk := true, post1 := none,
                   deleteOutcome := none, post2 := none } }
        "https://example.com/notes.md" []
      = (.error (.unboundLocal "content"), []) := by
  rfl

/-! ## C4: oversized PDFs bypass the raw upload -/

/-- C4: for an existing local PDF whose size exceeds the 50MB threshold,
`index_file` never reaches the raw file-upload path and instead invokes
the segmented-document path exactly once, with document id
`slugify(filename)` and the locally extracted title and texts,
returning that call's result. -/
theorem index_file_oversized_pdf_segment_path (dumps : Md → String)
    (summarize_tables reindex : Bool) (env : FileEnv) (filename uri : String)
    (metadata : Md) (ttl : String) (txts : List String)
    (hpdf : strEndsWith filename ".pdf" = true)
    (hex : env.fileExists = true)
    (hsize : 50 < env.sizeMB)
    (hparse : env.pdfParseFull = .ok (ttl, txts)) :
    index_file dumps summarize_tables reindex env filename uri metadata
      = index_segments dumps reindex env.idxFull (slugify filename) txts none none
          metadata ttl
  ∧ (index_file dumps summarize_tables reindex env filename uri metadata).2.countP
        (fun c => match c with | Call.upload _ => true | _ => false) = 0
  ∧ (index_file dumps summarize_tables reindex env filename uri metadata).2.countP
        (fun c => match c with | Call.assemble _ _ _ => true | _ => false) = 1 := by
  have hle : (50 : ℚ) ≤ env.sizeMB := le_of_lt hsize
  have heq : index_file dumps summarize_tables reindex env filename uri metadata
      = index_segments dumps reindex env.idxFull (slugify filename) txts none none
          metadata ttl := by
    simp [index_file, hex, hpdf, hle, hparse]
  refine ⟨heq, ?_, ?_⟩
  · rw [heq]
    simp only [index_segments, List.countP_cons]
    simp [(index_document_no_upload_calls reindex env.idxFull _).1]
  · rw [heq]
    simp only [index_segments, List.countP_cons]
    simp [(index_document_no_upload_calls reindex env.idxFull _).2]

/-- C4 witness: a 51MB PDF goes through the segmented path once, with no
raw upload. -/
theorem index_file_oversized_pdf_segment_path_witness :
    index_file (fun _ => "") false true
        { fileExists := true, sizeMB := 51,
          pdfParseFull := .ok ("Big Document Title", ["part one", "part two"]),
          pdfParseTables := .ok ("", []),
          idxFull := { serializeOk := true,
                       post1 := some { status_code := 200,
                                       body := some { code := "OK", statusDetail := "" } },
                       deleteOutcome := none, post2 := none },
          idxTables := { serializeOk := true, post1 := none,
                         deleteOutcome := none, post2 := none },
          upload := { post1 := none, deleteOutcome := none, post2 := none } }
        "big.pdf" "https://files.example.com/big.pdf" []
      = index_segments (fun _ => "") true
          { serializeOk := true,
            post1 := some { status_code := 200,
                            body := some { code := "OK", statusDetail := "" } },
            deleteOutcome := none, post2 := none }
          (slugify "big.pdf") ["part one", "part two"] none none []
          "Big Document Title" :=
  (index_file_oversized_pdf_segment_path (fun _ => "") false true _
    "big.pdf" "https://files.example.com/big.pdf" [] "Big Document Title"
    ["part one", "part two"] (by decide) rfl (by decide) rfl).1

/-! ## C3: the table-summarization secondary pass -/

/-- C3 (amended): when table summarization is enabled and `index_file`
is given an existing PDF below the size threshold, it first performs a
secondary indexing pass producing a separate document whose id is
`slugify(filename + "_tables")` — the suffix is appended to the
filename before slugification, so the id is not in general the primary
segmented-path id with a literal `"_tables"` suffix — and whose title
is `"Tables for "` plus the filename, containing exactly the
tables-only extraction output; an exception raised inside the secondary
pass makes `index_file` return `False` for the whole unit, while a
boolean failure returned by the secondary submission is discarded and
the unit proceeds to the raw upload. -/
theorem index_file_tables_pass (dumps : Md → String) (reindex : Bool)
    (env : FileEnv) (filename uri : String) (metadata : Md)
    (ttl : String) (txts : List String)
    (hpdf : strEndsWith filename ".pdf" = true)
    (hex : env.fileExists = true)
    (hsize : env.sizeMB < 50)
    (hparse : env.pdfParseTables = .ok (ttl, txts)) :
    (index_file dumps true reindex env filename uri metadata).2.head?
        = some (Call.assemble (slugify (filename ++ "_tables"))
            ("Tables for " ++ filename) txts)
  ∧ (∀ e : PyErr,
      (index_segments dumps reindex env.idxTables (slugify (filename ++ "_tables"))
          txts none none metadata ("Tables for " ++ filename)).1 = .error e →
      index_file dumps true reindex env filename uri metadata
        = (.ok false,
           (index_segments dumps reindex env.idxTables (slugify (filename ++ "_tables"))
              txts none none metadata ("Tables for " ++ filename)).2))
  ∧ (∀ b : Bool,
      (index_segments dumps reindex env.idxTables (slugify (filename ++ "_tables"))
          txts none none metadata ("Tables for " ++ filename)).1 = .ok b →
      index_file dumps true reindex env filename uri metadata
        = ((index_file_raw reindex env.upload env.fileExists).1,
           (index_segments dumps reindex env.idxTables (slugify (filename ++ "_tables"))
              txts none none metadata ("Tables for " ++ filename)).2
             ++ (index_file_raw reindex env.upload env.fileExists).2)) := by
  have hnot : ¬ (50 : ℚ) ≤ env.sizeMB := not_le.mpr hsize
  refine ⟨?_, ?_, ?_⟩
  · simp only [index_file, hex, hpdf, hnot, hparse]
    cases hs : (index_segments dumps reindex env.idxTables
        (slugify (filename ++ "_tables")) txts none none metadata
        ("Tables for " ++ filename)).1 <;>
      simp [hs, index_segments]
  · intro e hs
    simp only [index_file, hex, hpdf, hnot, hparse]
    simp [hs]
  · intro b hs
    simp only [index_file, hex, hpdf, hnot, hparse]
    simp [hs]

/-- The concrete environment for the C3 witness and counterexample: an
existing 1MB PDF, a successful tables-only parse, and remote endpoints
that accept everything. -/
def c3Env : FileEnv :=
  { fileExists := true, sizeMB := 1,
    pdfParseFull := .ok ("", []),
    pdfParseTables := .ok ("ignored", ["table one"]),
    idxFull := { serializeOk := true, post1 := none,
                 deleteOutcome := none, post2 := none },
    idxTables := { serializeOk := true,
                   post1 := some { status_code := 200,
                                   body := some { code := "OK", statusDetail := "" } },
                   deleteOutcome := none, post2 := none },
    upload := { post1 := some { status_code := 200, details := "" },
                deleteOutcome := none, post2 := none } }

/-- C3 witness: the secondary pass of a small PDF with summarization on
assembles the separate tables document with the slugified suffixed id
and the `"Tables for "` title. -/
theorem index_file_tables_pass_witness :
    (index_file (fun _ => "") true true c3Env "doc.pdf" "u" []).2.head?
      = some (Call.assemble (slugify ("doc.pdf" ++ "_tables"))
          ("Tables for " ++ "doc.pdf") ["table one"]) :=
  (index_file_tables_pass (fun _ => "") true c3Env "doc.pdf" "u" []
    "ignored" ["table one"] (by decide) rfl (by decide) rfl).1

/-- Variant of `c3Env` whose secondary submission is rejected by the
remote index (a 200 response with no status object, so `index_segments`
returns `False`) while the raw upload succeeds. -/
def c3EnvReject : FileEnv :=
  { fileExists := true, sizeMB := 1,
    pdfParseFull := .ok ("", []),
    pdfParseTables := .ok ("ignored", ["table one"]),
    idxFull := { serializeOk := true, post1 := none,
                 deleteOutcome := none, post2 := none },
    idxTables := { serializeOk := true,
                   post1 := some { status_code := 200, body := none },
                   deleteOutcome := none, post2 := none },
    upload := { post1 := some { status_code := 200, details := "" },
                deleteOutcome := none, post2 := none } }

/-- C3 counterexample.  First, the claim says the secondary document's
id is the original document id with a `"_tables"` suffix; the code
instead slugifies `filename + "_tables"`, which turns the underscore
into a hyphen: for `doc.pdf` the code produces `doc-pdf-tables`,
whereas the segmented-path document id `slugify("doc.pdf")` with the
literal `"_tables"` suffix is `doc-pdf_tables`.  Second, the claim says
failure of the secondary pass makes `index_file` return `False`, but
when the secondary submission merely returns `False` (no exception) the
unit still succeeds: the boolean is discarded. -/
theorem index_file_tables_id_counterexample :
    (index_file (fun _ => "") true true c3Env "doc.pdf" "u" []).2.head?
      = some (Call.assemble "doc-pdf-tables" "Tables for doc.pdf" ["table one"])
  ∧ slugify "doc.pdf" ++ "_tables" = "doc-pdf_tables"
  ∧ "doc-pdf-tables" ≠ "doc-pdf_tables"
  ∧ ((index_segments (fun _ => "") true c3EnvReject.idxTables
        (slugify ("doc.pdf" ++ "_tables")) ["table one"] none none []
        ("Tables for " ++ "doc.pdf")).1 = .ok false
      ∧ (index_file (fun _ => "") true true c3EnvReject "doc.pdf" "u" []).1 = .ok true) := by
  exact ⟨rfl, by decide, by decide, rfl, rfl⟩
